import Mathlib

/-!
Verification of the FasalMitra plant-disease classification-and-advisory
pipeline.  The repository's backend service code
(`server/app/services/ml_disease_service.py` and the FastAPI endpoint) is
not shipped in the tree; only its documentation, launch scripts, and two
embedded snippets (`get_llm_advice` and `checkImageQuality`) are.  The
definitions below therefore embed those two snippets directly from source
and model the remaining pipeline from the specification (each such
definition is marked `Modelled from the spec:`).
-/

namespace FasalMitra

/-- Severity tiers of a detected condition, ordered
`none < mild < moderate < severe`. -/
inductive SeverityTier
  | none
  | mild
  | moderate
  | severe
deriving DecidableEq, Repr

/-- Numeric rank realizing the ordering `none < mild < moderate < severe`. -/
def tierRank : SeverityTier → Nat
  | SeverityTier.none => 0
  | SeverityTier.mild => 1
  | SeverityTier.moderate => 2
  | SeverityTier.severe => 3

/-- Modelled from the spec: the condition category attached to each class
label ("the exact category membership ... are configuration"); the source
service itself is absent from the tree. -/
inductive ConditionCategory
  | healthy
  | background
  | rot
  | blight
  | viral
  | fungal
  | bacterial
  | mite
deriving DecidableEq, Repr

/-- Modelled from the spec: "the condition belongs to a high-impact
category (rot, blight, viral)". -/
def highImpact : ConditionCategory → Bool
  | ConditionCategory.rot => true
  | ConditionCategory.blight => true
  | ConditionCategory.viral => true
  | _ => false

/-- Modelled from the spec: "the condition is fungal/bacterial"; rots and
blights are fungal diseases, so they carry this attribute as well. -/
def fungalOrBacterial : ConditionCategory → Bool
  | ConditionCategory.fungal => true
  | ConditionCategory.bacterial => true
  | ConditionCategory.rot => true
  | ConditionCategory.blight => true
  | _ => false

/-- Modelled from the spec: the high confidence threshold
("confidence ≥ a high threshold (e.g., 85)"). -/
def highConfidenceThreshold : ℚ := 85

/-- Modelled from the spec: the lower bound of "mid-range" confidence
(a configuration constant; the spec leaves the exact value open). -/
def midConfidenceThreshold : ℚ := 40

/-- Modelled from the spec: the state-free severity estimator
`severity(condition, confidence) -> SeverityTier`:
none when healthy or background; severe for a high-impact category at high
confidence; moderate for fungal/bacterial at mid-range-or-higher
confidence; mild otherwise. -/
def severity (cat : ConditionCategory) (conf : ℚ) : SeverityTier :=
  if cat = ConditionCategory.healthy ∨ cat = ConditionCategory.background then
    SeverityTier.none
  else if highImpact cat = true ∧ highConfidenceThreshold ≤ conf then
    SeverityTier.severe
  else if fungalOrBacterial cat = true ∧ midConfidenceThreshold ≤ conf then
    SeverityTier.moderate
  else
    SeverityTier.mild

/-- A class label of the 39-entry closed label set: crop, condition name,
healthy flag, background flag, and condition category. -/
structure ClassLabel where
  crop : String
  condition : String
  isHealthy : Bool
  isBackground : Bool
  category : ConditionCategory
deriving DecidableEq, Repr

/-- Modelled from the spec: the fixed 39-entry class-label table of the
classifier (the documented PlantVillage-based class list, in its standard
alphabetical order with the background class at index 4). -/
def classLabels : List ClassLabel := [
  ⟨"Apple", "Apple scab", false, false, ConditionCategory.fungal⟩,
  ⟨"Apple", "Black rot", false, false, ConditionCategory.rot⟩,
  ⟨"Apple", "Cedar apple rust", false, false, ConditionCategory.fungal⟩,
  ⟨"Apple", "Healthy", true, false, ConditionCategory.healthy⟩,
  ⟨"Background", "Background without leaves", false, true, ConditionCategory.background⟩,
  ⟨"Blueberry", "Healthy", true, false, ConditionCategory.healthy⟩,
  ⟨"Cherry", "Powdery mildew", false, false, ConditionCategory.fungal⟩,
  ⟨"Cherry", "Healthy", true, false, ConditionCategory.healthy⟩,
  ⟨"Corn", "Cercospora leaf spot", false, false, ConditionCategory.fungal⟩,
  ⟨"Corn", "Common rust", false, false, ConditionCategory.fungal⟩,
  ⟨"Corn", "Northern leaf blight", false, false, ConditionCategory.blight⟩,
  ⟨"Corn", "Healthy", true, false, ConditionCategory.healthy⟩,
  ⟨"Grape", "Black rot", false, false, ConditionCategory.rot⟩,
  ⟨"Grape", "Esca black measles", false, false, ConditionCategory.fungal⟩,
  ⟨"Grape", "Leaf blight", false, false, ConditionCategory.blight⟩,
  ⟨"Grape", "Healthy", true, false, ConditionCategory.healthy⟩,
  ⟨"Orange", "Citrus greening", false, false, ConditionCategory.bacterial⟩,
  ⟨"Peach", "Bacterial spot", false, false, ConditionCategory.bacterial⟩,
  ⟨"Peach", "Healthy", true, false, ConditionCategory.healthy⟩,
  ⟨"Pepper bell", "Bacterial spot", false, false, ConditionCategory.bacterial⟩,
  ⟨"Pepper bell", "Healthy", true, false, ConditionCategory.healthy⟩,
  ⟨"Potato", "Early blight", false, false, ConditionCategory.blight⟩,
  ⟨"Potato", "Late blight", false, false, ConditionCategory.blight⟩,
  ⟨"Potato", "Healthy", true, false, ConditionCategory.healthy⟩,
  ⟨"Raspberry", "Healthy", true, false, ConditionCategory.healthy⟩,
  ⟨"Soybean", "Healthy", true, false, ConditionCategory.healthy⟩,
  ⟨"Squash", "Powdery mildew", false, false, ConditionCategory.fungal⟩,
  ⟨"Strawberry", "Leaf scorch", false, false, ConditionCategory.fungal⟩,
  ⟨"Strawberry", "Healthy", true, false, ConditionCategory.healthy⟩,
  ⟨"Tomato", "Bacterial spot", false, false, ConditionCategory.bacterial⟩,
  ⟨"Tomato", "Early blight", false, false, ConditionCategory.blight⟩,
  ⟨"Tomato", "Late blight", false, false, ConditionCategory.blight⟩,
  ⟨"Tomato", "Leaf mold", false, false, ConditionCategory.fungal⟩,
  ⟨"Tomato", "Septoria leaf spot", false, false, ConditionCategory.fungal⟩,
  ⟨"Tomato", "Spider mites", false, false, ConditionCategory.mite⟩,
  ⟨"Tomato", "Target spot", false, false, ConditionCategory.fungal⟩,
  ⟨"Tomato", "Yellow leaf curl virus", false, false, ConditionCategory.viral⟩,
  ⟨"Tomato", "Mosaic virus", false, false, ConditionCategory.viral⟩,
  ⟨"Tomato", "Healthy", true, false, ConditionCategory.healthy⟩]

/-- Modelled from the spec: first-occurrence argmax over the probability
vector, returning `(index, value)`; a strictly greater tail value is needed
to displace the head, so on numeric ties the lower class index wins. -/
def argmaxP : List ℚ → Option (Nat × ℚ)
  | [] => Option.none
  | x :: xs =>
    match argmaxP xs with
    | Option.none => some (0, x)
    | some (j, v) => if x < v then some (j + 1, v) else some (0, x)

/-- Per-request classification result: the interpreted label, its class
index, and the confidence as a percentage. -/
structure ClassificationResult where
  label : ClassLabel
  classIdx : Nat
  confidencePercent : ℚ
deriving DecidableEq, Repr

/-- Modelled from the spec: the ClassificationInterpreter — pick the index
of the maximum probability (lower index wins ties), look up its ClassLabel,
confidence = that probability × 100. -/
def interpret (probs : List ℚ) : Option ClassificationResult :=
  match argmaxP probs with
  | Option.none => Option.none
  | some (j, v) =>
    match classLabels[j]? with
    | Option.none => Option.none
    | some lbl => some ⟨lbl, j, v * 100⟩

/-- Machine-distinguishable validation failure reasons. -/
inductive ValidationReason
  | tooLarge
  | tooSmall
  | unsupportedType
  | missingCropHint
deriving DecidableEq, Repr

/-- Failure outcomes of the `detect` entry point. -/
inductive DetectError
  | validation (r : ValidationReason)
  | decodeFailed
  | modelUnavailable
  | unknownLabel
deriving DecidableEq, Repr

/-- A detection request: upload byte length, declared content type, and the
declared crop hint. -/
structure DetectionRequest where
  sizeBytes : Nat
  contentType : String
  cropHint : String
deriving DecidableEq, Repr

/-- The externally visible detection response. -/
structure DetectionResponse where
  label : ClassLabel
  cropDetected : String
  conditionName : String
  isHealthy : Bool
  confidencePercent : ℚ
  severityTier : SeverityTier
  cause : String
  treatment : String
  recommendations : List String
  nextSteps : List String
  llmAdvice : Option String
deriving DecidableEq, Repr

/-- Which expensive pipeline stages ran while serving one request. -/
structure Trace where
  preprocessed : Bool
  classified : Bool
  kbLookup : Bool
deriving DecidableEq, Repr

/-- Accepted raster image content types (frontend config in the source:
`ACCEPTED_FORMATS = ["image/jpeg", "image/png", "image/webp"]`). -/
def acceptedTypes : List String := ["image/jpeg", "image/png", "image/webp"]

/-- Upload size ceiling in bytes (10 MB, from the source's
`checkImageQuality` snippet and the documented `MAX_FILE_SIZE = 10MB`). -/
def maxFileSize : Nat := 10000000

/-- Lower size bound in bytes (50 KB, from the source's `checkImageQuality`
snippet). -/
def minFileSize : Nat := 50000

/-- Embedded from the source frontend snippet `checkImageQuality`: returns
the quality warnings raised for a file of the given byte size. -/
def checkImageQuality (sizeBytes : Nat) : List String :=
  (if sizeBytes < minFileSize then
    ["Image might be too small. Please upload a clearer picture."]
  else []) ++
  (if sizeBytes > maxFileSize then
    ["Image too large. Please compress or use a smaller image."]
  else [])

/-- Modelled from the spec: the RequestValidator gate — rejects oversized,
undersized, non-raster, or hint-less uploads with a machine-distinguishable
reason, checked in that order; the backend validator code is absent from
the tree. -/
def validateRequest (req : DetectionRequest) : Option ValidationReason :=
  if req.sizeBytes > maxFileSize then some ValidationReason.tooLarge
  else if req.sizeBytes < minFileSize then some ValidationReason.tooSmall
  else if (acceptedTypes.contains req.contentType) = false then
    some ValidationReason.unsupportedType
  else if req.cropHint = "" then some ValidationReason.missingCropHint
  else Option.none

/-- Embedded from the source (`get_llm_advice` in
`ml_disease_service.py`, quoted in the execution plan): on a successful
external call the generated text is returned; on any exception the method
returns normally with the string `"LLM advice unavailable: "` followed by
the error text. -/
def get_llm_advice (callResult : Except String String) : String :=
  match callResult with
  | Except.ok text => text
  | Except.error e => "LLM advice unavailable: " ++ e

/-- Static knowledge-base record: cause and cure text for one disease. -/
structure DiseaseRecord where
  cause : String
  cure : String
deriving DecidableEq, Repr

/-- Modelled from the spec: the DiseaseKnowledgeBase — a read-only table
keyed 1:1 with non-healthy, non-background class labels, each entry
carrying non-empty cause and cure text (the shipped `plant_diseases.json`
is absent from the tree). -/
def diseaseKB (lbl : ClassLabel) : Option DiseaseRecord :=
  if lbl.isHealthy = true ∨ lbl.isBackground = true then Option.none
  else some ⟨"Pathogen causing " ++ lbl.condition ++ " on " ++ lbl.crop,
    "Apply the recommended treatment for " ++ lbl.condition ++
      "; remove affected leaves and improve air circulation"⟩

/-- The environment one `detect` call runs against: adapter load state,
whether the upload decodes, the classifier's probability vector for this
image, and the outcome of the external advice call (`Option.none` when the
advice generator is not configured). -/
structure PipelineEnv where
  modelLoaded : Bool
  decodeOk : Bool
  probs : List ℚ
  adviceCall : Option (Except String String)
deriving Repr

/-- Modelled from the spec: the recommendation list assembled per outcome;
background responses ask for a clearer re-upload, healthy responses confirm
care, diseased responses give the documented action list. -/
def buildRecommendations (lbl : ClassLabel) : List String :=
  if lbl.isBackground then
    ["No plant leaf detected - please re-upload a clearer image of the affected leaf"]
  else if lbl.isHealthy then
    ["Your " ++ lbl.crop ++ " plant appears healthy",
     "Continue current care practices"]
  else
    ["Disease detected - monitor your " ++ lbl.crop ++ " plants closely",
     "Begin treatment within 24-48 hours",
     "Check neighboring plants for symptoms",
     "Document affected area for tracking"]

/-- Modelled from the spec: the next-steps checklist per outcome. -/
def buildNextSteps (lbl : ClassLabel) : List String :=
  if lbl.isBackground then
    ["Retake the photo in good lighting",
     "Ensure a single leaf fills most of the frame"]
  else if lbl.isHealthy then
    ["Continue regular monitoring",
     "Maintain current watering and nutrition schedule"]
  else
    ["Apply recommended treatment within 48 hours",
     "Monitor affected plants twice daily",
     "Isolate affected area if possible",
     "Document progression with photos"]

/-- Modelled from the spec: the `detect` entry point. A degraded adapter
short-circuits every call to `ModelUnavailableError`; otherwise the request
is validated, decoded, preprocessed, classified, interpreted, and assembled
into a `DetectionResponse`; the trace records which expensive stages ran. -/
def detect (env : PipelineEnv) (req : DetectionRequest) :
    Except DetectError DetectionResponse × Trace :=
  if env.modelLoaded = false then
    (Except.error DetectError.modelUnavailable, ⟨false, false, false⟩)
  else
    match validateRequest req with
    | some r => (Except.error (DetectError.validation r), ⟨false, false, false⟩)
    | Option.none =>
      if env.decodeOk = false then
        (Except.error DetectError.decodeFailed, ⟨false, false, false⟩)
      else
        match interpret env.probs with
        | Option.none => (Except.error DetectError.unknownLabel, ⟨true, true, false⟩)
        | some cr =>
          if cr.label.isBackground = true then
            (Except.ok ⟨cr.label, cr.label.crop, cr.label.condition, false,
              cr.confidencePercent, SeverityTier.none, "", "",
              buildRecommendations cr.label, buildNextSteps cr.label, Option.none⟩,
              ⟨true, true, false⟩)
          else if cr.label.isHealthy = true then
            (Except.ok ⟨cr.label, cr.label.crop, cr.label.condition, true,
              cr.confidencePercent, SeverityTier.none, "", "",
              buildRecommendations cr.label, buildNextSteps cr.label, Option.none⟩,
              ⟨true, true, false⟩)
          else
            match diseaseKB cr.label with
            | Option.none =>
              (Except.error DetectError.unknownLabel, ⟨true, true, true⟩)
            | some record =>
              (Except.ok ⟨cr.label, cr.label.crop, cr.label.condition, false,
                cr.confidencePercent,
                severity cr.label.category cr.confidencePercent,
                record.cause, record.cure,
                buildRecommendations cr.label, buildNextSteps cr.label,
                Option.map get_llm_advice env.adviceCall⟩,
                ⟨true, true, true⟩)

/-- A response with the optional generated-advice field removed; two
responses equal after stripping agree on every deterministic field. -/
def stripAdvice (r : DetectionResponse) : DetectionResponse :=
  { r with llmAdvice := Option.none }

/-- Demo probability vector (39 entries): maximum 0.945 at class index 30,
Tomato Early blight. -/
def demoProbs : List ℚ :=
  [1/1000, 1/1000, 1/1000, 1/1000, 1/1000, 1/1000, 1/1000, 1/1000, 1/1000,
   1/1000, 1/1000, 1/1000, 1/1000, 1/1000, 1/1000, 1/1000, 1/1000, 1/1000,
   1/1000, 1/1000, 1/1000, 1/1000, 1/1000, 1/1000, 1/1000, 1/1000, 1/1000,
   1/1000, 1/1000, 1/1000, 189/200, 1/1000, 1/1000, 1/1000, 1/1000, 1/1000,
   1/1000, 1/1000, 1/1000]

/-- Demo probability vector (39 entries): maximum 0.8 at class index 4, the
background class. -/
def demoProbsBg : List ℚ :=
  [1/1000, 1/1000, 1/1000, 1/1000, 4/5, 1/1000, 1/1000, 1/1000, 1/1000,
   1/1000, 1/1000, 1/1000, 1/1000, 1/1000, 1/1000, 1/1000, 1/1000, 1/1000,
   1/1000, 1/1000, 1/1000, 1/1000, 1/1000, 1/1000, 1/1000, 1/1000, 1/1000,
   1/1000, 1/1000, 1/1000, 1/1000, 1/1000, 1/1000, 1/1000, 1/1000, 1/1000,
   1/1000, 1/1000, 1/1000]

/-- Demo request: 500 KB JPEG upload with a crop hint. -/
def demoReq : DetectionRequest := ⟨500000, "image/jpeg", "Tomato"⟩

/-- Demo oversized request: 12 MB upload. -/
def req12MB : DetectionRequest := ⟨12000000, "image/jpeg", "Tomato"⟩

/-- Demo environment: model loaded, decode ok, diseased image, no external
advice generator configured. -/
def demoEnvOk : PipelineEnv := ⟨true, true, demoProbs, Option.none⟩

/-- Demo environment whose external advice call fails with error text
"timeout". -/
def demoEnvAdviceFail : PipelineEnv :=
  ⟨true, true, demoProbs, some (Except.error "timeout")⟩

/-- Demo environment classifying the background class. -/
def demoEnvBg : PipelineEnv := ⟨true, true, demoProbsBg, Option.none⟩

/-- Demo environment whose classifier failed to load (degraded state). -/
def demoEnvDegraded : PipelineEnv := ⟨false, true, demoProbs, Option.none⟩

/-- The classification result produced on `demoProbsBg`. -/
def crBg : ClassificationResult :=
  ⟨⟨"Background", "Background without leaves", false, true,
    ConditionCategory.background⟩, 4, 80⟩

/-- The full response produced by `detect demoEnvAdviceFail demoReq`. -/
def demoRespFail : DetectionResponse :=
  ⟨⟨"Tomato", "Early blight", false, false, ConditionCategory.blight⟩,
    "Tomato", "Early blight", false, 189/2, SeverityTier.severe,
    "Pathogen causing Early blight on Tomato",
    "Apply the recommended treatment for Early blight; remove affected leaves and improve air circulation",
    ["Disease detected - monitor your Tomato plants closely",
     "Begin treatment within 24-48 hours",
     "Check neighboring plants for symptoms",
     "Document affected area for tracking"],
    ["Apply recommended treatment within 48 hours",
     "Monitor affected plants twice daily",
     "Isolate affected area if possible",
     "Document progression with photos"],
    some "LLM advice unavailable: timeout"⟩

theorem argmaxP_ne_none (x : ℚ) (xs : List ℚ) :
    argmaxP (x :: xs) ≠ Option.none := by
  unfold argmaxP
  cases h : argmaxP xs with
  | none => simp
  | some p =>
    obtain ⟨j, v⟩ := p
    by_cases hxv : x < v <;> simp [hxv]

theorem argmaxP_eq_none_iff (l : List ℚ) :
    argmaxP l = Option.none ↔ l = [] := by
  cases l with
  | nil => simp [argmaxP]
  | cons x xs =>
    constructor
    · intro h
      exact absurd h (argmaxP_ne_none x xs)
    · intro h
      exact absurd h (by simp)

/-- Full specification of `argmaxP`: the returned index is in range, holds
the returned value, every entry is `≤` that value, and every strictly
earlier entry is `<` that value (lower index wins ties). -/
theorem argmaxP_spec (l : List ℚ) (j : Nat) (v : ℚ)
    (h : argmaxP l = some (j, v)) :
    ∃ hj : j < l.length,
      l.get ⟨j, hj⟩ = v ∧
      (∀ k (hk : k < l.length), l.get ⟨k, hk⟩ ≤ v) ∧
      (∀ k (hk : k < l.length), k < j → l.get ⟨k, hk⟩ < v) := by
  induction l generalizing j v with
  | nil => simp [argmaxP] at h
  | cons x xs ih =>
    unfold argmaxP at h
    cases htail : argmaxP xs with
    | none =>
      rw [htail] at h
      simp only [Option.some.injEq, Prod.mk.injEq] at h
      obtain ⟨hj0, hvx⟩ := h
      subst hj0; subst hvx
      have hnil : xs = [] := (argmaxP_eq_none_iff xs).mp htail
      subst hnil
      refine ⟨by simp, rfl, ?_, ?_⟩
      · intro k hk
        have hk0 : k = 0 := Nat.lt_one_iff.mp (by simpa using hk)
        subst hk0
        exact le_refl x
      · intro k hk hkj
        omega
    | some p =>
      obtain ⟨j', v'⟩ := p
      rw [htail] at h
      simp only at h
      obtain ⟨hj', hget', hle', hlt'⟩ := ih j' v' htail
      by_cases hxv : x < v'
      · rw [if_pos hxv] at h
        simp only [Option.some.injEq, Prod.mk.injEq] at h
        obtain ⟨hj1, hv1⟩ := h
        subst hj1; subst hv1
        refine ⟨by simpa using Nat.succ_lt_succ hj', ?_, ?_, ?_⟩
        · simpa using hget'
        · intro k hk
          cases k with
          | zero => exact le_of_lt hxv
          | succ k =>
            have hk' : k < xs.length := by simpa using hk
            simpa using hle' k hk'
        · intro k hk hkj
          cases k with
          | zero => exact hxv
          | succ k =>
            have hk' : k < xs.length := by simpa using hk
            have hkj' : k < j' := by omega
            simpa using hlt' k hk' hkj'
      · rw [if_neg hxv] at h
        simp only [Option.some.injEq, Prod.mk.injEq] at h
        obtain ⟨hj0, hvx⟩ := h
        subst hj0; subst hvx
        have hvle : v' ≤ x := le_of_not_lt hxv
        refine ⟨by simp, rfl, ?_, ?_⟩
        · intro k hk
          cases k with
          | zero => exact le_refl x
          | succ k =>
            have hk' : k < xs.length := by simpa using hk
            have := hle' k hk'
            calc xs.get ⟨k, hk'⟩ ≤ v' := by simpa using this
              _ ≤ x := hvle
        · intro k hk hkj
          omega

/-- A string starting with a non-empty prefix is non-empty. -/
theorem append_ne_empty (a b : String) (ha : 0 < a.length) : a ++ b ≠ "" := by
  intro he
  have h2 : (a ++ b).length = 0 := by rw [he]; rfl
  rw [String.length_append] at h2
  omega

/-- Every record served by the knowledge base has non-empty cause and cure
text. -/
theorem diseaseKB_fields (lbl : ClassLabel) (record : DiseaseRecord)
    (h : diseaseKB lbl = some record) :
    record.cause ≠ "" ∧ record.cure ≠ "" := by
  unfold diseaseKB at h
  split_ifs at h with hcase
  simp only [Option.some.injEq] at h
  subst h
  constructor
  · apply append_ne_empty
    rw [String.length_append, String.length_append]
    have hx : 0 < "Pathogen causing ".length := by decide
    omega
  · apply append_ne_empty
    rw [String.length_append]
    have hx : 0 < "Apply the recommended treatment for ".length := by decide
    omega

/-- Inversion principle for successful `detect` runs: the response always
comes from an interpreted classification and falls in exactly one of the
background, healthy, or diseased shapes. -/
theorem detect_ok_inv (env : PipelineEnv) (req : DetectionRequest)
    (resp : DetectionResponse) (h : (detect env req).fst = Except.ok resp) :
    ∃ cr, interpret env.probs = some cr ∧ resp.label = cr.label ∧
      resp.confidencePercent = cr.confidencePercent ∧
      resp.recommendations = buildRecommendations cr.label ∧
      ((cr.label.isBackground = true ∧ resp.isHealthy = false ∧
          resp.severityTier = SeverityTier.none ∧
          resp.llmAdvice = Option.none) ∨
        (cr.label.isBackground = false ∧ cr.label.isHealthy = true ∧
          resp.isHealthy = true ∧ resp.severityTier = SeverityTier.none ∧
          resp.llmAdvice = Option.none) ∨
        (cr.label.isBackground = false ∧ cr.label.isHealthy = false ∧
          resp.isHealthy = false ∧
          ∃ record, diseaseKB cr.label = some record ∧
            resp.cause = record.cause ∧ resp.treatment = record.cure ∧
            resp.severityTier =
              severity cr.label.category cr.confidencePercent ∧
            resp.llmAdvice = Option.map get_llm_advice env.adviceCall)) := by
  by_cases hm : env.modelLoaded = false
  · simp [detect, hm] at h
  · unfold detect at h
    rw [if_neg hm] at h
    cases hv : validateRequest req with
    | some r =>
      rw [hv] at h
      simp at h
    | none =>
      rw [hv] at h
      simp only at h
      by_cases hd : env.decodeOk = false
      · rw [if_pos hd] at h
        simp at h
      · rw [if_neg hd] at h
        cases hi : interpret env.probs with
        | none =>
          rw [hi] at h
          simp at h
        | some cr =>
          rw [hi] at h
          simp only at h
          by_cases hb : cr.label.isBackground = true
          · rw [if_pos hb] at h
            simp only [Except.ok.injEq] at h
            subst h
            exact ⟨cr, rfl, rfl, rfl, rfl, Or.inl ⟨hb, rfl, rfl, rfl⟩⟩
          · rw [if_neg hb] at h
            by_cases hh : cr.label.isHealthy = true
            · rw [if_pos hh] at h
              simp only [Except.ok.injEq] at h
              subst h
              exact ⟨cr, rfl, rfl, rfl, rfl,
                Or.inr (Or.inl ⟨by simpa using hb, hh, rfl, rfl, rfl⟩)⟩
            · rw [if_neg hh] at h
              cases hk : diseaseKB cr.label with
              | none =>
                rw [hk] at h
                simp at h
              | some record =>
                rw [hk] at h
                simp only [Except.ok.injEq] at h
                subst h
                exact ⟨cr, rfl, rfl, rfl, rfl,
                  Or.inr (Or.inr ⟨by simpa using hb, by simpa using hh, rfl,
                    record, hk, rfl, rfl, rfl, rfl⟩)⟩

/-- The outcome of the external advice call influences only the
`llmAdvice` field of the response: result (stripped of advice) and trace
are identical for any advice outcome. -/
theorem detect_advice_irrelevant (env : PipelineEnv) (req : DetectionRequest)
    (o : Option (Except String String)) :
    Except.map stripAdvice
        (detect ⟨env.modelLoaded, env.decodeOk, env.probs, o⟩ req).fst =
      Except.map stripAdvice (detect env req).fst ∧
    (detect ⟨env.modelLoaded, env.decodeOk, env.probs, o⟩ req).snd =
      (detect env req).snd := by
  obtain ⟨ml, dok, pr, adv⟩ := env
  cases ml with
  | false => simp [detect]
  | true =>
    cases hv : validateRequest req with
    | some r => simp [detect, hv]
    | none =>
      cases dok with
      | false => simp [detect, hv]
      | true =>
        cases hi : interpret pr with
        | none => simp [detect, hv, hi]
        | some cr =>
          by_cases hb : cr.label.isBackground = true
          · simp [detect, hv, hi, hb, stripAdvice, Except.map]
          · by_cases hh : cr.label.isHealthy = true
            · simp [detect, hv, hi, hb, hh, stripAdvice, Except.map]
            · cases hk : diseaseKB cr.label with
              | none => simp [detect, hv, hi, hb, hh, hk]
              | some record =>
                simp [detect, hv, hi, hb, hh, hk, stripAdvice, Except.map]

/-- Concrete evaluation: the diseased demo run with a failing advice call
succeeds and produces `demoRespFail`. -/
theorem demo_detect_eval :
    (detect demoEnvAdviceFail demoReq).fst = Except.ok demoRespFail := by
  norm_num [detect, demoEnvAdviceFail, demoReq, demoRespFail, validateRequest,
    interpret, argmaxP, demoProbs, classLabels, diseaseKB, get_llm_advice,
    maxFileSize, minFileSize, acceptedTypes, severity, highImpact,
    fungalOrBacterial, highConfidenceThreshold, midConfidenceThreshold,
    buildRecommendations, buildNextSteps]
  rfl

/-- Concrete evaluation: interpreting the background demo vector yields
the background label at index 4 with confidence 80. -/
theorem demo_interpret_bg : interpret demoProbsBg = some crBg := by
  norm_num [interpret, argmaxP, demoProbsBg, classLabels, crBg]

/-- C1: for every probability vector of length 39, the interpreter returns
the class at the index of the maximum probability (the lower index on
numeric ties) with `confidencePercent` equal to that maximum probability
times 100. -/
theorem interpreter_argmax (l : List ℚ) (h39 : l.length = 39) :
    ∃ (j : Nat) (v : ℚ) (lbl : ClassLabel),
      argmaxP l = some (j, v) ∧ j < 39 ∧ classLabels[j]? = some lbl ∧
      interpret l = some ⟨lbl, j, v * 100⟩ ∧
      (∃ hj : j < l.length, l.get ⟨j, hj⟩ = v) ∧
      (∀ k (hk : k < l.length), l.get ⟨k, hk⟩ ≤ v) ∧
      (∀ k (hk : k < l.length), k < j → l.get ⟨k, hk⟩ < v) := by
  have hne : l ≠ [] := by
    intro h0
    rw [h0] at h39
    simp at h39
  obtain ⟨j, v, hp⟩ : ∃ j v, argmaxP l = some (j, v) := by
    cases hl : argmaxP l with
    | none => exact absurd ((argmaxP_eq_none_iff l).mp hl) hne
    | some p =>
      obtain ⟨j, v⟩ := p
      exact ⟨j, v, rfl⟩
  obtain ⟨hj, hget, hle, hlt⟩ := argmaxP_spec l j v hp
  have hj39 : j < 39 := h39 ▸ hj
  have hjc : j < classLabels.length := by
    have hlen : classLabels.length = 39 := rfl
    omega
  have hcl : classLabels[j]? = some (classLabels.get ⟨j, hjc⟩) := by
    rw [List.getElem?_eq_getElem hjc]
    simp [List.get_eq_getElem]
  refine ⟨j, v, classLabels.get ⟨j, hjc⟩, hp, hj39, hcl, ?_, ⟨hj, hget⟩,
    hle, hlt⟩
  simp [interpret, hp, hcl]

/-- Witness for `interpreter_argmax` on the concrete demo vector. -/
theorem interpreter_argmax_witness :
    ∃ (j : Nat) (v : ℚ) (lbl : ClassLabel),
      argmaxP demoProbs = some (j, v) ∧ j < 39 ∧
      classLabels[j]? = some lbl ∧
      interpret demoProbs = some ⟨lbl, j, v * 100⟩ ∧
      (∃ hj : j < demoProbs.length, demoProbs.get ⟨j, hj⟩ = v) ∧
      (∀ k (hk : k < demoProbs.length), demoProbs.get ⟨k, hk⟩ ≤ v) ∧
      (∀ k (hk : k < demoProbs.length), k < j → demoProbs.get ⟨k, hk⟩ < v) :=
  interpreter_argmax demoProbs (by rfl)

/-- C2: for every fixed condition category and any two confidence values
c1 ≤ c2, the severity tier at c1 is at most the tier at c2 under the
ordering none < mild < moderate < severe. -/
theorem severity_monotone (cat : ConditionCategory) (c1 c2 : ℚ)
    (h : c1 ≤ c2) :
    tierRank (severity cat c1) ≤ tierRank (severity cat c2) := by
  unfold severity
  split_ifs with h1 h2 h3 h4 h5 <;>
    simp_all [tierRank] <;> linarith

/-- Witness for `severity_monotone` at the blight category with confidence
values 50 and 90. -/
theorem severity_monotone_witness :
    tierRank (severity ConditionCategory.blight 50) ≤
      tierRank (severity ConditionCategory.blight 90) :=
  severity_monotone ConditionCategory.blight 50 90 (by norm_num)

/-- C3: in the degraded state (load failure reported), every call to
`detect` returns `ModelUnavailableError` and the preprocessor never runs;
`detect` does not change the adapter state, so this persists until a
successful reload replaces the environment. -/
theorem degraded_short_circuit (env : PipelineEnv) (req : DetectionRequest)
    (h : env.modelLoaded = false) :
    (detect env req).fst = Except.error DetectError.modelUnavailable ∧
    (detect env req).snd.preprocessed = false := by
  simp [detect, h]

/-- Witness for `degraded_short_circuit` on a concrete degraded
environment and request. -/
theorem degraded_short_circuit_witness :
    (detect demoEnvDegraded demoReq).fst =
      Except.error DetectError.modelUnavailable ∧
    (detect demoEnvDegraded demoReq).snd.preprocessed = false :=
  degraded_short_circuit demoEnvDegraded demoReq rfl

/-- C4 counterexample: on a concrete run whose external advice call fails,
`detect` succeeds but the generated-advice field is NOT omitted - it is
populated with the error-message string, refuting "only the
generatedAdvice field omitted". -/
theorem advice_failure_field_present :
    (detect demoEnvAdviceFail demoReq).fst = Except.ok demoRespFail ∧
    demoRespFail.llmAdvice = some "LLM advice unavailable: timeout" ∧
    ¬ demoRespFail.llmAdvice = Option.none :=
  ⟨demo_detect_eval, rfl, by simp [demoRespFail]⟩

/-- C4 (amended): if the external advice call fails, `detect` behaves
exactly as if no advice generator were configured - same success/failure
outcome, same trace, identical deterministic fields - and the failure is
never propagated; however the `llmAdvice` field of a diseased response is
not omitted but set to the error-message string. -/
theorem advice_failure_graceful (env : PipelineEnv) (req : DetectionRequest)
    (e : String) (h : env.adviceCall = some (Except.error e)) :
    Except.map stripAdvice (detect env req).fst =
      Except.map stripAdvice
        (detect ⟨env.modelLoaded, env.decodeOk, env.probs, Option.none⟩ req).fst ∧
    (detect env req).snd =
      (detect ⟨env.modelLoaded, env.decodeOk, env.probs, Option.none⟩ req).snd ∧
    ∀ resp, (detect env req).fst = Except.ok resp →
      resp.llmAdvice = Option.none ∨
      resp.llmAdvice = some ("LLM advice unavailable: " ++ e) := by
  obtain ⟨h1, h2⟩ := detect_advice_irrelevant env req Option.none
  refine ⟨h1.symm, h2.symm, ?_⟩
  intro resp hresp
  obtain ⟨cr, hi, hlbl, hconf, hrec, hcases⟩ := detect_ok_inv env req resp hresp
  rcases hcases with ⟨_, _, _, hadv⟩ | ⟨_, _, _, _, hadv⟩ |
    ⟨_, _, _, record, _, _, _, _, hadv⟩
  · exact Or.inl hadv
  · exact Or.inl hadv
  · right
    rw [hadv, h]
    rfl

/-- Witness for `advice_failure_graceful` on the concrete failing-advice
demo run. -/
theorem advice_failure_graceful_witness :
    Except.map stripAdvice (detect demoEnvAdviceFail demoReq).fst =
      Except.map stripAdvice
        (detect ⟨true, true, demoProbs, Option.none⟩ demoReq).fst :=
  (advice_failure_graceful demoEnvAdviceFail demoReq "timeout" rfl).1

/-- C5: a classification resolving to the background label yields a
successful response with `isHealthy = false`, `severity = none`, and no
knowledge-base lookup is attempted. -/
theorem background_no_kb (env : PipelineEnv) (req : DetectionRequest)
    (cr : ClassificationResult) (hm : env.modelLoaded = true)
    (hv : validateRequest req = Option.none) (hd : env.decodeOk = true)
    (hi : interpret env.probs = some cr)
    (hb : cr.label.isBackground = true) :
    ∃ resp, (detect env req).fst = Except.ok resp ∧
      resp.isHealthy = false ∧ resp.severityTier = SeverityTier.none ∧
      (detect env req).snd.kbLookup = false := by
  simp [detect, hm, hv, hd, hi, hb]

/-- Witness for `background_no_kb` on the concrete background demo run. -/
theorem background_no_kb_witness :
    ∃ resp, (detect demoEnvBg demoReq).fst = Except.ok resp ∧
      resp.isHealthy = false ∧ resp.severityTier = SeverityTier.none ∧
      (detect demoEnvBg demoReq).snd.kbLookup = false :=
  background_no_kb demoEnvBg demoReq crBg rfl (by decide) rfl
    demo_interpret_bg rfl

/-- C6: every successful response with `isHealthy = false` and a
non-background label has a non-empty recommendation list and non-empty
cause and treatment text. -/
theorem diseased_response_fields (env : PipelineEnv) (req : DetectionRequest)
    (resp : DetectionResponse) (h : (detect env req).fst = Except.ok resp)
    (hh : resp.isHealthy = false) (hb : resp.label.isBackground = false) :
    resp.recommendations ≠ [] ∧ resp.cause ≠ "" ∧ resp.treatment ≠ "" := by
  obtain ⟨cr, hi, hlbl, hconf, hrec, hcases⟩ := detect_ok_inv env req resp h
  rcases hcases with ⟨hb1, _, _, _⟩ | ⟨_, _, hh1, _, _⟩ |
    ⟨hb1, hh1, _, record, hk, hc, ht, _, _⟩
  · rw [hlbl] at hb
    rw [hb] at hb1
    exact Bool.noConfusion hb1
  · rw [hh] at hh1
    exact Bool.noConfusion hh1
  · refine ⟨?_, ?_, ?_⟩
    · rw [hrec]
      unfold buildRecommendations
      rw [if_neg (by simp [hb1]), if_neg (by simp [hh1])]
      simp
    · rw [hc]
      exact (diseaseKB_fields cr.label record hk).1
    · rw [ht]
      exact (diseaseKB_fields cr.label record hk).2

/-- Witness for `diseased_response_fields` on the concrete diseased demo
run. -/
theorem diseased_response_fields_witness :
    demoRespFail.recommendations ≠ [] ∧ demoRespFail.cause ≠ "" ∧
    demoRespFail.treatment ≠ "" :=
  diseased_response_fields demoEnvAdviceFail demoReq demoRespFail
    demo_detect_eval rfl rfl

/-- C7: with the classifier available, an upload larger than the 10 MB
ceiling is rejected as `ValidationError TooLarge` and neither the
preprocessor nor the classifier runs. -/
theorem oversized_rejected (env : PipelineEnv) (req : DetectionRequest)
    (hm : env.modelLoaded = true) (hs : maxFileSize < req.sizeBytes) :
    (detect env req).fst =
      Except.error (DetectError.validation ValidationReason.tooLarge) ∧
    (detect env req).snd.preprocessed = false ∧
    (detect env req).snd.classified = false := by
  have hv : validateRequest req = some ValidationReason.tooLarge := by
    unfold validateRequest
    rw [if_pos hs]
  simp [detect, hm, hv]

/-- Witness for `oversized_rejected`: a 12 MB upload against the 10 MB
ceiling. -/
theorem oversized_rejected_witness :
    (detect demoEnvOk req12MB).fst =
      Except.error (DetectError.validation ValidationReason.tooLarge) ∧
    (detect demoEnvOk req12MB).snd.preprocessed = false ∧
    (detect demoEnvOk req12MB).snd.classified = false :=
  oversized_rejected demoEnvOk req12MB rfl (by norm_num [maxFileSize, req12MB])

/-- C8: the severity table - none for healthy or background; severe for a
high-impact category (rot, blight, viral) at confidence ≥ 85; moderate for
a fungal/bacterial category at mid-range-or-higher confidence when the
severe clause does not fire; mild in all remaining cases. -/
theorem severity_table (cat : ConditionCategory) (conf : ℚ) :
    severity ConditionCategory.healthy conf = SeverityTier.none ∧
    severity ConditionCategory.background conf = SeverityTier.none ∧
    (highImpact cat = true → highConfidenceThreshold ≤ conf →
      severity cat conf = SeverityTier.severe) ∧
    (fungalOrBacterial cat = true →
      ¬ (highImpact cat = true ∧ highConfidenceThreshold ≤ conf) →
      midConfidenceThreshold ≤ conf →
      severity cat conf = SeverityTier.moderate) ∧
    (cat ≠ ConditionCategory.healthy → cat ≠ ConditionCategory.background →
      ¬ (highImpact cat = true ∧ highConfidenceThreshold ≤ conf) →
      ¬ (fungalOrBacterial cat = true ∧ midConfidenceThreshold ≤ conf) →
      severity cat conf = SeverityTier.mild) := by
  refine ⟨by simp [severity], by simp [severity], ?_, ?_, ?_⟩
  · intro hhi hc
    cases cat <;> simp_all [severity, highImpact]
  · intro hfb hns hc
    cases cat <;> simp_all [severity, highImpact, fungalOrBacterial]
  · intro hh hb hns hnm
    cases cat <;> simp_all [severity, highImpact, fungalOrBacterial] <;>
      rw [if_neg (not_le.mpr hns), if_neg (not_le.mpr hnm)]

/-- Witness for `severity_table`: blight at confidence 90 is severe. -/
theorem severity_table_witness :
    severity ConditionCategory.blight 90 = SeverityTier.severe :=
  (severity_table ConditionCategory.blight 90).2.2.1 rfl
    (by norm_num [highConfidenceThreshold])

/-- C9: when the classifier output entries lie in [0, 1], the confidence
percentage in the interpreted classification result and in every
successful response lies in the closed interval [0, 100]. -/
theorem confidence_bounds (env : PipelineEnv) (req : DetectionRequest)
    (hp : ∀ p ∈ env.probs, 0 ≤ p ∧ p ≤ 1) :
    (∀ cr, interpret env.probs = some cr →
      0 ≤ cr.confidencePercent ∧ cr.confidencePercent ≤ 100) ∧
    (∀ resp, (detect env req).fst = Except.ok resp →
      0 ≤ resp.confidencePercent ∧ resp.confidencePercent ≤ 100) := by
  have hmain : ∀ cr, interpret env.probs = some cr →
      0 ≤ cr.confidencePercent ∧ cr.confidencePercent ≤ 100 := by
    intro cr hcr
    unfold interpret at hcr
    cases hl : argmaxP env.probs with
    | none =>
      rw [hl] at hcr
      simp at hcr
    | some p =>
      obtain ⟨j, v⟩ := p
      rw [hl] at hcr
      simp only at hcr
      cases hcl : classLabels[j]? with
      | none =>
        rw [hcl] at hcr
        simp at hcr
      | some lbl =>
        rw [hcl] at hcr
        simp only [Option.some.injEq] at hcr
        subst hcr
        obtain ⟨hj, hget, _, _⟩ := argmaxP_spec env.probs j v hl
        have hvmem : v ∈ env.probs := hget ▸ env.probs.get_mem j hj
        obtain ⟨h0, h1⟩ := hp v hvmem
        constructor
        · exact mul_nonneg h0 (by norm_num)
        · calc v * 100 ≤ 1 * 100 :=
            mul_le_mul_of_nonneg_right h1 (by norm_num)
          _ = 100 := by norm_num
  refine ⟨hmain, ?_⟩
  intro resp h
  obtain ⟨cr, hi, _, hconf, _, _⟩ := detect_ok_inv env req resp h
  rw [hconf]
  exact hmain cr hi

/-- Witness for `confidence_bounds` on the concrete diseased demo run. -/
theorem confidence_bounds_witness :
    0 ≤ demoRespFail.confidencePercent ∧
    demoRespFail.confidencePercent ≤ 100 :=
  (confidence_bounds demoEnvAdviceFail demoReq
    (by norm_num [demoEnvAdviceFail, demoProbs])).2 demoRespFail
    demo_detect_eval

/-- C10: `get_llm_advice` returns normally on every failing external call,
producing "LLM advice unavailable: " followed by the error text, and that
string - not an absent field - is what a diseased response delivers in its
advice field. -/
theorem llm_advice_error_string (e : String) :
    get_llm_advice (Except.error e) = "LLM advice unavailable: " ++ e ∧
    (∀ t, get_llm_advice (Except.ok t) = t) ∧
    (∀ env req resp, env.adviceCall = some (Except.error e) →
      (detect env req).fst = Except.ok resp →
      resp.label.isHealthy = false → resp.label.isBackground = false →
      resp.llmAdvice = some ("LLM advice unavailable: " ++ e)) := by
  refine ⟨rfl, fun t => rfl, ?_⟩
  intro env req resp ha h hh hb
  obtain ⟨cr, hi, hlbl, _, _, hcases⟩ := detect_ok_inv env req resp h
  rcases hcases with ⟨hb1, _, _, _⟩ | ⟨_, hh1, _, _, _⟩ |
    ⟨_, _, _, record, _, _, _, _, hadv⟩
  · rw [hlbl] at hb
    rw [hb] at hb1
    exact Bool.noConfusion hb1
  · rw [hlbl] at hh
    rw [hh] at hh1
    exact Bool.noConfusion hh1
  · rw [hadv, ha]
    rfl

/-- Witness for `llm_advice_error_string` on the concrete failing-advice
demo run. -/
theorem llm_advice_error_string_witness :
    demoRespFail.llmAdvice = some ("LLM advice unavailable: " ++ "timeout") :=
  (llm_advice_error_string "timeout").2.2 demoEnvAdviceFail demoReq
    demoRespFail rfl demo_detect_eval rfl rfl

end FasalMitra
